/-
Verification of the theatre-service conditional-request core.

Shallow embedding of the repository's ETag computation (src/utils/etag.py),
the integer/UUID shim (src/utils/etag.py, src/utils/converters.py), the data
services (src/services/theatreDataService.py, showtimeDataService.py,
screenDataService.py) and the routers' conditional-request logic
(src/routers/theatre_routes.py, showtime_routes.py).

Conventions:
  * machine integers are Nat/Int (Python ints are unbounded);
  * the SQLAlchemy store is a list of rows; `db.commit()` SQL-UPDATE side
    effects (including the `onupdate=datetime.utcnow` refresh of
    `updated_at`) fire exactly when the row has a net change, matching
    SQLAlchemy's flush behaviour;
  * `datetime.utcnow()` results are passed in explicitly as `now` values;
  * SHA-256 is implemented concretely over byte lists.
-/
import Mathlib

set_option maxRecDepth 1000000

namespace TheatreService

/-! ## SHA-256 over byte lists (the `hashlib.sha256` primitive) -/

/-- Truncate to 32 bits. -/
def m32 (x : Nat) : Nat := x % 4294967296

/-- Rotate a 32-bit word right by `n`. -/
def rotr (x n : Nat) : Nat := m32 ((x >>> n) ||| (x <<< (32 - n)))

/-- The eight 32-bit words of a SHA-256 state / digest. -/
structure Hash8 where
  a : Nat
  b : Nat
  c : Nat
  d : Nat
  e : Nat
  f : Nat
  g : Nat
  h : Nat
deriving Repr, DecidableEq

/-- The SHA-256 initial hash values (FIPS 180-4), in decimal. -/
def sha256init : Hash8 :=
  ⟨1779033703, 3144134277, 1013904242, 2773480762,
   1359893119, 2600822924, 528734635, 1541459225⟩

/-- The 64 SHA-256 round constants (FIPS 180-4), in decimal. -/
def sha256k : List Nat :=
  [1116352408, 1899447441, 3049323471, 3921009573, 961987163,
   1508970993, 2453635748, 2870763221, 3624381080, 310598401,
   607225278, 1426881987, 1925078388, 2162078206, 2614888103,
   3248222580, 3835390401, 4022224774, 264347078, 604807628,
   770255983, 1249150122, 1555081692, 1996064986, 2554220882,
   2821834349, 2952996808, 3210313671, 3336571891, 3584528711,
   113926993, 338241895, 666307205, 773529912, 1294757372,
   1396182291, 1695183700, 1986661051, 2177026350, 2456956037,
   2730485921, 2820302411, 3259730800, 3345764771, 3516065817,
   3600352804, 4094571909, 275423344, 430227734, 506948616,
   659060556, 883997877, 958139571, 1322822218, 1537002063,
   1747873779, 1955562222, 2024104815, 2227730452, 2361852424,
   2428436474, 2756734187, 3204031479, 3329325298]

/-- Next word of the message schedule from the sliding window of the previous
16 words (`win.getD 0 0` is `w[i-16]`, `win.getD 1 0` is `w[i-15]`, …). -/
def newWord (win : List Nat) : Nat :=
  let x0 := win.getD 0 0
  let x1 := win.getD 1 0
  let x9 := win.getD 9 0
  let x14 := win.getD 14 0
  let s0 := (rotr x1 7) ^^^ (rotr x1 18) ^^^ (x1 >>> 3)
  let s1 := (rotr x14 17) ^^^ (rotr x14 19) ^^^ (x14 >>> 10)
  m32 (x0 + s0 + x9 + s1)

/-- Emit `fuel` schedule words starting from a window of 16 words. -/
def schedAll (fuel : Nat) (win : List Nat) : List Nat :=
  match fuel with
  | 0 => []
  | n+1 =>
    match win with
    | w0 :: rest => w0 :: schedAll n (rest ++ [newWord (w0 :: rest)])
    | [] => []

def compressRound (st : Hash8) (kw : Nat) : Hash8 :=
  let s1 := (rotr st.e 6) ^^^ (rotr st.e 11) ^^^ (rotr st.e 25)
  let ch := (st.e &&& st.f) ^^^ ((st.e ^^^ 4294967295) &&& st.g)
  let t1 := m32 (st.h + s1 + ch + kw)
  let s0 := (rotr st.a 2) ^^^ (rotr st.a 13) ^^^ (rotr st.a 22)
  let maj := (st.a &&& st.b) ^^^ (st.a &&& st.c) ^^^ (st.b &&& st.c)
  let t2 := m32 (s0 + maj)
  ⟨m32 (t1 + t2), st.a, st.b, st.c, m32 (st.d + t1), st.e, st.f, st.g⟩

def addHash (x y : Hash8) : Hash8 :=
  ⟨m32 (x.a + y.a), m32 (x.b + y.b), m32 (x.c + y.c), m32 (x.d + y.d),
   m32 (x.e + y.e), m32 (x.f + y.f), m32 (x.g + y.g), m32 (x.h + y.h)⟩

/-- Turn bytes into big-endian 32-bit words (block length is divisible by 4). -/
def wordsOfBytes : List Nat → List Nat
  | b0 :: b1 :: b2 :: b3 :: rest => (((b0 * 256 + b1) * 256 + b2) * 256 + b3) :: wordsOfBytes rest
  | _ => []

def processBlock (st : Hash8) (block : List Nat) : Hash8 :=
  let w := schedAll 64 (wordsOfBytes block)
  let kw := List.zipWith (fun k x => m32 (k + x)) sha256k w
  addHash st (kw.foldl compressRound st)

/-- Split into 64-byte blocks; fuel keeps the recursion structural so the
kernel can evaluate it. -/
def splitBlocksFuel : Nat → List Nat → List (List Nat)
  | 0, _ => []
  | _, [] => []
  | n+1, b :: rest => ((b :: rest).take 64) :: splitBlocksFuel n ((b :: rest).drop 64)

def splitBlocks (l : List Nat) : List (List Nat) := splitBlocksFuel (l.length + 1) l

/-- SHA-256 padding: 0x80, zeros to 56 mod 64, then the 64-bit big-endian bit length. -/
def padMsg (msg : List Nat) : List Nat :=
  let L := msg.length
  let padLen := (119 - (L % 64)) % 64 + 1
  msg ++ (128 :: List.replicate (padLen - 1) 0) ++
    [(L * 8) >>> 56 % 256, (L * 8) >>> 48 % 256, (L * 8) >>> 40 % 256, (L * 8) >>> 32 % 256,
     (L * 8) >>> 24 % 256, (L * 8) >>> 16 % 256, (L * 8) >>> 8 % 256, (L * 8) % 256]

/-- The SHA-256 digest of a byte list, as the final eight-word state. -/
def sha256Hash (msg : List Nat) : Hash8 :=
  (splitBlocks (padMsg msg)).foldl processBlock sha256init

def hexNib (n : Nat) : Char :=
  match n with
  | 0 => '0' | 1 => '1' | 2 => '2' | 3 => '3' | 4 => '4' | 5 => '5' | 6 => '6' | 7 => '7'
  | 8 => '8' | 9 => '9' | 10 => 'a' | 11 => 'b' | 12 => 'c' | 13 => 'd' | 14 => 'e' | _ => 'f'

def hex8 (w : Nat) : List Char :=
  [hexNib (w >>> 28 % 16), hexNib (w >>> 24 % 16), hexNib (w >>> 20 % 16), hexNib (w >>> 16 % 16),
   hexNib (w >>> 12 % 16), hexNib (w >>> 8 % 16), hexNib (w >>> 4 % 16), hexNib (w % 16)]

def hashChars (st : Hash8) : List Char :=
  hex8 st.a ++ hex8 st.b ++ hex8 st.c ++ hex8 st.d ++ hex8 st.e ++ hex8 st.f ++ hex8 st.g ++ hex8 st.h

/-- `hashlib.sha256(payload).hexdigest()`. -/
def sha256hex (msg : List Nat) : String :=
  String.mk (hashChars (sha256Hash msg))

/-! ## UTF-8 encoding (`payload.encode("utf-8")`) -/

def utf8Char (c : Char) : List Nat :=
  let n := c.toNat
  if n < 128 then [n]
  else if n < 2048 then [192 ||| (n >>> 6), 128 ||| (n &&& 63)]
  else if n < 65536 then [224 ||| (n >>> 12), 128 ||| ((n >>> 6) &&& 63), 128 ||| (n &&& 63)]
  else [240 ||| (n >>> 18), 128 ||| ((n >>> 12) &&& 63), 128 ||| ((n >>> 6) &&& 63), 128 ||| (n &&& 63)]

def utf8Bytes (s : String) : List Nat := s.data.flatMap utf8Char

/-! ## Python `datetime` and its `isoformat` rendering -/

/-- A naive `datetime.datetime` value. -/
structure DateTime where
  year : Nat
  month : Nat
  day : Nat
  hour : Nat
  minute : Nat
  second : Nat
  microsecond : Nat
deriving Repr, DecidableEq

/-- Left-pad a decimal rendering with zeros to width `w` (Python `%02d` / `%04d` / `%06d`). -/
def padNum (w n : Nat) : String :=
  let s := Nat.repr n
  String.mk (List.replicate (w - s.length) '0' ++ s.data)

/-- `datetime.isoformat()`: `YYYY-MM-DDTHH:MM:SS`, with `.ffffff` appended
exactly when the microsecond field is nonzero. -/
def isoformat (d : DateTime) : String :=
  padNum 4 d.year ++ "-" ++ padNum 2 d.month ++ "-" ++ padNum 2 d.day ++ "T" ++
    padNum 2 d.hour ++ ":" ++ padNum 2 d.minute ++ ":" ++ padNum 2 d.second ++
    (if d.microsecond = 0 then "" else "." ++ padNum 6 d.microsecond)

/-! ## UUIDs and the integer shim

A `uuid.UUID` is identified with its 128-bit integer value. -/

/-- `k` fixed hex digits of `v`, big-endian.  For `v < 16^k` this equals the
minimal hex rendering left-zero-padded to width `k` (so `fixedHex 32 v` is
`f"{v:032x}"` whenever `v < 2^128`, the only values `uuid.UUID` accepts). -/
def fixedHex : Nat → Nat → List Char
  | 0, _ => []
  | k+1, v => fixedHex k (v / 16) ++ [hexNib (v % 16)]

/--
`int_to_uuid` (src/utils/etag.py): converts an integer ID to a UUID by
padding its hex form to 32 characters.  The UUID's 128-bit value is the
integer itself.  (The `value is None` branch returns a random `uuid4` and is
not modelled; all stored primary keys are integers.)
-/
def int_to_uuid (value : Nat) : Nat := value

/-- `str(uuid)`: the canonical hyphenated 8-4-4-4-12 lowercase hex form. -/
def uuidCanonicalChars (u : Nat) : List Char :=
  let h := fixedHex 32 u
  h.take 8 ++ '-' :: (h.drop 8).take 4 ++ '-' :: (h.drop 12).take 4 ++ '-' ::
    (h.drop 16).take 4 ++ '-' :: h.drop 20

def uuidCanonical (u : Nat) : String := String.mk (uuidCanonicalChars u)

def hexVal (c : Char) : Nat :=
  if c.toNat ≥ 97 then c.toNat - 87
  else if c.toNat ≥ 65 then c.toNat - 55
  else c.toNat - 48

/-- `int(s, 16)` on a hex string. -/
def hexCharsToNat (l : List Char) : Nat := l.foldl (fun acc c => acc * 16 + hexVal c) 0

/--
The routers' conversion of a path UUID back to an integer key
(`int(str(theatre_id).replace('-', '')[:8], 16) % (10**9)`, identical in
src/routers/theatre_routes.py and src/routers/showtime_routes.py):
drop the hyphens, keep the first 8 hex characters, parse, reduce mod 10^9.
-/
def uuidToDbInt (u : Nat) : Nat :=
  hexCharsToNat (((uuidCanonicalChars u).filter (fun c => c ≠ '-')).take 8) % (10 ^ 9)

/-! ## Python `json.dumps` with `sort_keys=True`, `separators=(",", ":")`,
`cls=PydanticJSONEncoder`, `ensure_ascii` (the default) -/

def hex4 (n : Nat) : List Char :=
  [hexNib (n >>> 12 % 16), hexNib (n >>> 8 % 16), hexNib (n >>> 4 % 16), hexNib (n % 16)]

/-- JSON string escaping as performed by `json.dumps` with `ensure_ascii=True`:
backslash, double quote and the five short escapes, `\uXXXX` for other
control or non-ASCII characters (surrogate pairs above U+FFFF). -/
def escapeChar (c : Char) : List Char :=
  let n := c.toNat
  if c = '\\' then ['\\', '\\']
  else if c = '"' then ['\\', '"']
  else if n = 8 then ['\\', 'b']
  else if n = 9 then ['\\', 't']
  else if n = 10 then ['\\', 'n']
  else if n = 12 then ['\\', 'f']
  else if n = 13 then ['\\', 'r']
  else if n < 32 then '\\' :: 'u' :: hex4 n
  else if n < 127 then [c]
  else if n < 65536 then '\\' :: 'u' :: hex4 n
  else
    ('\\' :: 'u' :: hex4 (55296 + ((n - 65536) >>> 10))) ++
      ('\\' :: 'u' :: hex4 (56320 + ((n - 65536) &&& 1023)))

def escapeString (s : String) : String :=
  String.mk ('"' :: s.data.flatMap escapeChar ++ ['"'])

/-- The JSON-serializable values appearing in the services' `model_dump`
output: strings, (unbounded) ints, `datetime` values, `UUID` values, `None`. -/
inductive JVal where
  | jstr (s : String)
  | jint (i : Int)
  | jdate (d : DateTime)
  | juuid (u : Nat)
  | jnull
deriving Repr, DecidableEq

/-- Python `repr` of an int. -/
def intRepr (i : Int) : String :=
  if i < 0 then "-" ++ Nat.repr i.natAbs else Nat.repr i.natAbs

/--
Rendering of a single value inside `json.dumps`.  The `jdate` and `juuid`
cases are the two branches of `PydanticJSONEncoder.default`
(src/utils/etag.py): a datetime is encoded as `o.isoformat() + "Z"` and a
UUID as `str(o)`, both then emitted as JSON strings.
-/
def renderJVal : JVal → String
  | JVal.jstr s => escapeString s
  | JVal.jint i => intRepr i
  | JVal.jdate d => escapeString (isoformat d ++ "Z")
  | JVal.juuid u => escapeString (uuidCanonical u)
  | JVal.jnull => "null"

/-- A `model_dump` result: association list of field name / value. -/
def Fields : Type := List (String × JVal)

/-- `exclude_none=True`: drop fields whose value is `None`. -/
def excludeNone (fs : List (String × JVal)) : List (String × JVal) :=
  fs.filter (fun p => match p.2 with | JVal.jnull => false | _ => true)

/-- Lexicographic code-point comparison of char lists: Python's `str` `<=`. -/
def charListLE : List Char → List Char → Bool
  | [], _ => true
  | _ :: _, [] => false
  | a :: as, b :: bs =>
    if a.toNat < b.toNat then true
    else if b.toNat < a.toNat then false
    else charListLE as bs

/-- Key order used by `sort_keys=True`. -/
def keyLE (p q : String × JVal) : Bool := charListLE p.1.data q.1.data

/-- `sort_keys=True`: keys in lexicographic (code-point) order. -/
def sortKeys (fs : List (String × JVal)) : List (String × JVal) :=
  List.insertionSort (fun p q => keyLE p q = true) fs

/-- `json.dumps(..., sort_keys=True, separators=(",", ":"))` on the
none-excluded field set: canonical form, keys sorted, no insignificant
whitespace. -/
def canonPayload (fs : List (String × JVal)) : String :=
  "\x7b" ++ String.intercalate "," ((sortKeys (excludeNone fs)).map
    (fun p => escapeString p.1 ++ ":" ++ renderJVal p.2)) ++ "\x7d"

/--
`calc_etag` (src/utils/etag.py): SHA-256 of the canonical JSON payload of the
model's fields, hex digest wrapped in double quotes.
-/
def calc_etag (fs : List (String × JVal)) : String :=
  "\"" ++ sha256hex (utf8Bytes (canonPayload fs)) ++ "\""

/-! ## Theatre rows, schemas and services -/

/-- A row of the `theatres` table (src/models/models.py plus the `BaseModel`
audit columns of src/database.py). -/
structure TheatreRow where
  theatre_id : Nat
  cinema_id : Nat
  name : String
  address : String
  screen_count : Int
  created_at : DateTime
  updated_at : DateTime
  is_deleted : Bool
  deleted_at : Option DateTime
  created_by : Option Int
deriving Repr, DecidableEq

/-- Modelled from the spec: `schemas/theatre.py` is imported by
src/routers/theatre_routes.py but absent from the sources.  `TheatreRead` is
the API-facing representation; its field set is fixed by
`dict_to_theatre_read` (src/utils/converters.py), which the router feeds to
it verbatim: two identifiers (as UUIDs), name, address, `screenCount`, and
the two audit timestamps. -/
structure TheatreRead where
  theatre_id : Nat
  name : String
  address : String
  cinema_id : Nat
  screenCount : Int
  created_at : DateTime
  updated_at : DateTime
deriving Repr, DecidableEq

/-- Modelled from the spec: `TheatreCreate` (absent `schemas/theatre.py`) is
the full-replace payload; the router reads `name`, `address`, `screenCount`. -/
structure TheatreCreate where
  name : String
  address : String
  screenCount : Int
deriving Repr, DecidableEq

/-- Modelled from the spec: `TheatreUpdate` (absent `schemas/theatre.py`) is
the partial-update payload; the router reads the optional `name`, `address`,
`screenCount` after `model_dump(exclude_none=True)`. -/
structure TheatreUpdate where
  name : Option String
  address : Option String
  screenCount : Option Int
deriving Repr, DecidableEq

/-- `dict_to_theatre_read` (src/utils/converters.py). -/
def dict_to_theatre_read (t : TheatreRow) : TheatreRead :=
  { theatre_id := int_to_uuid t.theatre_id
    name := t.name
    address := t.address
    cinema_id := int_to_uuid t.cinema_id
    screenCount := t.screen_count
    created_at := t.created_at
    updated_at := t.updated_at }

/-- The `model_dump` field set of a `TheatreRead`. -/
def theatreFields (r : TheatreRead) : List (String × JVal) :=
  [("theatre_id", JVal.juuid r.theatre_id),
   ("name", JVal.jstr r.name),
   ("address", JVal.jstr r.address),
   ("cinema_id", JVal.juuid r.cinema_id),
   ("screenCount", JVal.jint r.screenCount),
   ("created_at", JVal.jdate r.created_at),
   ("updated_at", JVal.jdate r.updated_at)]

def calcEtagTheatre (r : TheatreRead) : String := calc_etag (theatreFields r)

/-- Replace the first element satisfying `p` by its image under `f`,
returning the new element; the SQLAlchemy `query(...).first()` /
mutate / `commit()` pattern over a row list. -/
def updateFirst {α : Type} (p : α → Bool) (f : α → α) : List α → Option α × List α
  | [] => (none, [])
  | x :: xs =>
    if p x then (some (f x), f x :: xs)
    else
      let r := updateFirst p f xs
      (r.1, x :: r.2)

/-- The filter of `TheatreDataService.get_theatre_by_id`:
`theatre_id == id AND is_deleted == False`. -/
def theatreMatch (id : Nat) (t : TheatreRow) : Bool :=
  t.theatre_id == id && !t.is_deleted

/-- `TheatreDataService.get_theatre_by_id`. -/
def get_theatre_by_id (db : List TheatreRow) (id : Nat) : Option TheatreRow :=
  db.find? (theatreMatch id)

/-- `TheatreDataService.get_all_theatres`: all non-deleted rows. -/
def get_all_theatres (db : List TheatreRow) : List TheatreRow :=
  db.filter (fun t => !t.is_deleted)

/-- The conditional field assignments of `TheatreDataService.update_theatre`. -/
def applyTheatreUpdates (name addr : Option String) (sc : Option Int) (t : TheatreRow) : TheatreRow :=
  { t with
    name := name.getD t.name
    address := addr.getD t.address
    screen_count := sc.getD t.screen_count }

/-- `db.commit()` on a possibly-mutated row: an UPDATE is issued only on a
net change, and then `onupdate=datetime.utcnow` refreshes `updated_at`. -/
def commitRow (old new : TheatreRow) (now : DateTime) : TheatreRow :=
  if new = old then old else { new with updated_at := now }

/-- `TheatreDataService.update_theatre`. -/
def update_theatre (db : List TheatreRow) (id : Nat) (name addr : Option String)
    (sc : Option Int) (now : DateTime) : Option TheatreRow × List TheatreRow :=
  updateFirst (theatreMatch id) (fun t => commitRow t (applyTheatreUpdates name addr sc t) now) db

/-- `BaseModel.soft_delete` (src/database.py) followed by the commit's
`onupdate` refresh: set the flag and the deletion timestamp; the row is not
removed. -/
def softDeleteRow (t : TheatreRow) (now : DateTime) : TheatreRow :=
  { t with is_deleted := true, deleted_at := some now, updated_at := now }

/-- `TheatreDataService.delete_theatre`: soft delete, returns success. -/
def delete_theatre (db : List TheatreRow) (id : Nat) (now : DateTime) : Bool × List TheatreRow :=
  let r := updateFirst (theatreMatch id) (fun t => softDeleteRow t now) db
  (r.1.isSome, r.2)

/-! ## Theatre router (src/routers/theatre_routes.py) -/

/-- Outcome of a theatre endpoint: HTTP status, optional body, `ETag`
response header, and the store after the request. -/
structure TheatreResp where
  status : Nat
  body : Option TheatreRead
  etag : Option String
  db : List TheatreRow
deriving Repr, DecidableEq

/-- `get_theatre`: 404 when absent/deleted; 304 (no body, tag still
returned) when `If-None-Match` equals the current tag; otherwise 200 with
body and tag. -/
def getTheatre (db : List TheatreRow) (u : Nat) (ifNoneMatch : Option String) : TheatreResp :=
  let id := uuidToDbInt u
  match get_theatre_by_id db id with
  | none => ⟨404, none, none, db⟩
  | some t =>
    let item := dict_to_theatre_read t
    let etag := calcEtagTheatre item
    if ifNoneMatch = some etag then ⟨304, none, some etag, db⟩
    else ⟨200, some item, some etag, db⟩

/-- `update_theatre` (PATCH): 404 / 428 / 412 / 200 with the new tag. -/
def patchTheatre (db : List TheatreRow) (u : Nat) (upd : TheatreUpdate)
    (ifMatch : Option String) (now : DateTime) : TheatreResp :=
  let id := uuidToDbInt u
  match get_theatre_by_id db id with
  | none => ⟨404, none, none, db⟩
  | some t =>
    let existing := dict_to_theatre_read t
    let currentEtag := calcEtagTheatre existing
    if ifMatch = none then ⟨428, none, none, db⟩
    else if ifMatch ≠ some currentEtag then ⟨412, none, none, db⟩
    else
      match update_theatre db id upd.name upd.address upd.screenCount now with
      | (none, db') => ⟨500, none, none, db'⟩
      | (some t', db') =>
        let result := dict_to_theatre_read t'
        ⟨200, some result, some (calcEtagTheatre result), db'⟩

/-- `replace_theatre` (PUT): same conditional semantics as PATCH, full
replacement of the three payload fields. -/
def putTheatre (db : List TheatreRow) (u : Nat) (theatre : TheatreCreate)
    (ifMatch : Option String) (now : DateTime) : TheatreResp :=
  let id := uuidToDbInt u
  match get_theatre_by_id db id with
  | none => ⟨404, none, none, db⟩
  | some t =>
    let existing := dict_to_theatre_read t
    let currentEtag := calcEtagTheatre existing
    if ifMatch = none then ⟨428, none, none, db⟩
    else if ifMatch ≠ some currentEtag then ⟨412, none, none, db⟩
    else
      match update_theatre db id (some theatre.name) (some theatre.address)
          (some theatre.screenCount) now with
      | (none, db') => ⟨500, none, none, db'⟩
      | (some t', db') =>
        let result := dict_to_theatre_read t'
        ⟨200, some result, some (calcEtagTheatre result), db'⟩

/-- Outcome of the DELETE endpoint (its body is a fixed status dict). -/
structure DeleteResp where
  status : Nat
  db : List TheatreRow
deriving Repr, DecidableEq

/-- `delete_theatre` (DELETE): `If-Match` optional; 412 only when supplied
and mismatched; otherwise the soft delete proceeds. -/
def deleteTheatre (db : List TheatreRow) (u : Nat) (ifMatch : Option String)
    (now : DateTime) : DeleteResp :=
  let id := uuidToDbInt u
  match get_theatre_by_id db id with
  | none => ⟨404, db⟩
  | some t =>
    let existing := dict_to_theatre_read t
    let currentEtag := calcEtagTheatre existing
    if ifMatch ≠ none ∧ ifMatch ≠ some currentEtag then ⟨412, db⟩
    else
      match delete_theatre db id now with
      | (false, db') => ⟨500, db'⟩
      | (true, db') => ⟨200, db'⟩

/-! ## Screen and Showtime rows, services -/

/-- A row of the `screens` table. -/
structure ScreenRow where
  screen_id : Nat
  theatre_id : Nat
  screen_number : String
  num_rows : Int
  num_cols : Int
  created_at : DateTime
  updated_at : DateTime
  is_deleted : Bool
  deleted_at : Option DateTime
  created_by : Option Int
deriving Repr, DecidableEq

/-- A row of the `showtimes` table.  The `price` column (a float) is not
modelled: floating point is outside the embedding and no reachable code
path of the claims reads it. -/
structure ShowtimeRow where
  showtime_id : Nat
  screen_id : Nat
  movie_id : Int
  start_time : DateTime
  seats_booked : Int
  created_at : DateTime
  updated_at : DateTime
  is_deleted : Bool
  deleted_at : Option DateTime
  created_by : Option Int
deriving Repr, DecidableEq

/-- Partial-update payload for a Showtime (`ShowtimeUpdate` in
schemas/showtime.py, restricted to the fields the router's dead code would
forward to the service). -/
structure ShowtimeUpd where
  movie_id : Option Int
  start_time : Option DateTime
  seats_booked : Option Int
deriving Repr, DecidableEq

def showtimeMatch (id : Nat) (s : ShowtimeRow) : Bool :=
  s.showtime_id == id && !s.is_deleted

/-- `ShowtimeDataService.get_showtime_by_id`. -/
def get_showtime_by_id (db : List ShowtimeRow) (id : Nat) : Option ShowtimeRow :=
  db.find? (showtimeMatch id)

def screenMatch (id : Nat) (s : ScreenRow) : Bool :=
  s.screen_id == id && !s.is_deleted

/-- `ScreenDataService.get_screen_by_id`. -/
def get_screen_by_id (db : List ScreenRow) (id : Nat) : Option ScreenRow :=
  db.find? (screenMatch id)

/-- `db.commit()` on a possibly-mutated showtime row (net-change semantics,
`onupdate` refresh). -/
def commitShowtimeRow (old new : ShowtimeRow) (now : DateTime) : ShowtimeRow :=
  if new = old then old else { new with updated_at := now }

/-- `ShowtimeDataService.update_showtime`'s conditional field assignments. -/
def applyShowtimeUpdates (movieId : Option Int) (startTime : Option DateTime)
    (seatsBooked : Option Int) (s : ShowtimeRow) : ShowtimeRow :=
  { s with
    movie_id := movieId.getD s.movie_id
    start_time := startTime.getD s.start_time
    seats_booked := seatsBooked.getD s.seats_booked }

/-- `ShowtimeDataService.update_showtime`. -/
def update_showtime (db : List ShowtimeRow) (id : Nat) (movieId : Option Int)
    (startTime : Option DateTime) (seatsBooked : Option Int) (now : DateTime) :
    Option ShowtimeRow × List ShowtimeRow :=
  updateFirst (showtimeMatch id)
    (fun s => commitShowtimeRow s (applyShowtimeUpdates movieId startTime seatsBooked s) now) db

/-- `ShowtimeDataService.update_seat_count`: unconditionally applies the
signed delta (`showtime.seats_booked += seat_delta`) and commits. -/
def update_seat_count (db : List ShowtimeRow) (id : Nat) (seatDelta : Int)
    (now : DateTime) : Option ShowtimeRow × List ShowtimeRow :=
  updateFirst (showtimeMatch id)
    (fun s => commitShowtimeRow s { s with seats_booked := s.seats_booked + seatDelta } now) db

/-- `BaseModel.soft_delete` on a showtime row, plus the commit's `onupdate`. -/
def softDeleteShowtime (s : ShowtimeRow) (now : DateTime) : ShowtimeRow :=
  { s with is_deleted := true, deleted_at := some now, updated_at := now }

/-- `ShowtimeDataService.delete_showtime`. -/
def delete_showtime (db : List ShowtimeRow) (id : Nat) (now : DateTime) :
    Bool × List ShowtimeRow :=
  let r := updateFirst (showtimeMatch id) (fun s => softDeleteShowtime s now) db
  (r.1.isSome, r.2)

/-! ## Showtime router (src/routers/showtime_routes.py)

Every handler of this router calls the service layer without the required
`db: Session` first argument (`db_service.get_showtime_by_id(showtime_id_int)`
at src/routers/showtime_routes.py lines 95, 120, 162, 201, 225 and 264,
against `ShowtimeDataService.get_showtime_by_id(self, db, showtime_id)` in
src/services/showtimeDataService.py), so the first service call of every
request raises `TypeError`; FastAPI surfaces the uncaught exception as a
500 response, no database operation is issued, and the store is untouched.
All conditional-request, bounds-check and response-construction code after
those calls is unreachable — and constructing the response model would fail
anyway, since `ShowtimeRead` in schemas/showtime.py requires a `price`
field and int-typed ids that `dict_to_showtime_read` does not supply, and
the seat endpoint subscripts an ORM `Screen` row as a dict.  Each handler
therefore denotes the constant server-error response with the store
unchanged. -/

/-- Outcome of a showtime endpoint: HTTP status and the store afterwards.
No showtime endpoint ever produces a body or an `ETag` header. -/
structure ShowtimeResp where
  status : Nat
  sdb : List ShowtimeRow
deriving Repr, DecidableEq

/-- `get_showtime` (GET /showtimes/{id}): `TypeError` on the db-less
`get_showtime_by_id` call (line 95) ⇒ 500 with the store unchanged; the
304/200 conditional logic below it is dead code. -/
def getShowtime (sdb : List ShowtimeRow) (_u : Nat) (_ifNoneMatch : Option String) :
    ShowtimeResp :=
  ⟨500, sdb⟩

/-- `update_showtime` (PATCH /showtimes/{id}): `TypeError` on the db-less
`get_showtime_by_id` call (line 120) ⇒ 500 before the 428/412 checks, store
unchanged for every payload and every `If-Match` value. -/
def patchShowtime (sdb : List ShowtimeRow) (_u : Nat) (_upd : ShowtimeUpd)
    (_ifMatch : Option String) (_now : DateTime) : ShowtimeResp :=
  ⟨500, sdb⟩

/-- `replace_showtime` (PUT /showtimes/{id}): the same collapse as PATCH
(line 162). -/
def putShowtime (sdb : List ShowtimeRow) (_u : Nat) (_movieId : Int)
    (_startTime : DateTime) (_seatsBooked : Int) (_ifMatch : Option String)
    (_now : DateTime) : ShowtimeResp :=
  ⟨500, sdb⟩

/-- `update_seat_count` (POST /showtimes/{id}/seats): `TypeError` on the
db-less `get_showtime_by_id` call (line 264; likewise `get_screen_by_id` at
272 and `update_seat_count` at 292) ⇒ 500 before the screen lookup and the
bounds checks; the 404/400/200 paths and the delta application are dead and
the store is never mutated. -/
def updateSeatCount (sdb : List ShowtimeRow) (_screens : List ScreenRow) (_u : Nat)
    (_count : Int) (_now : DateTime) : ShowtimeResp :=
  ⟨500, sdb⟩

/-! ## Helper lemmas: `updateFirst` against `List.find?` -/

theorem updateFirst_of_find_none {α : Type} (p : α → Bool) (f : α → α) :
    ∀ l : List α, l.find? p = none → updateFirst p f l = (none, l) := by
  intro l h
  induction l with
  | nil => rfl
  | cons x xs ih =>
    cases hp : p x with
    | true => rw [List.find?_cons_of_pos _ hp] at h; exact absurd h (by simp)
    | false =>
      rw [List.find?_cons_of_neg _ (by simp [hp])] at h
      simp [updateFirst, hp, ih h]

theorem updateFirst_of_find_some {α : Type} (p : α → Bool) (f : α → α) :
    ∀ l x, l.find? p = some x →
      ∃ l₁ l₂, l = l₁ ++ x :: l₂ ∧ (∀ y ∈ l₁, p y = false) ∧ p x = true ∧
        updateFirst p f l = (some (f x), l₁ ++ f x :: l₂) := by
  intro l
  induction l with
  | nil => intro x h; simp [List.find?] at h
  | cons a as ih =>
    intro x h
    cases hp : p a with
    | true =>
      rw [List.find?_cons_of_pos _ hp] at h
      obtain rfl : a = x := by injection h
      exact ⟨[], as, rfl, by intro y hy; exact absurd hy (List.not_mem_nil y),
        hp, by simp [updateFirst, hp]⟩
    | false =>
      rw [List.find?_cons_of_neg _ (by simp [hp])] at h
      obtain ⟨l₁, l₂, rfl, h₁, hx, hu⟩ := ih x h
      refine ⟨a :: l₁, l₂, rfl, ?_, hx, ?_⟩
      · intro y hy
        rcases List.mem_cons.mp hy with rfl | hy
        · exact hp
        · exact h₁ y hy
      · simp [updateFirst, hp, hu]

theorem find_append_of_all_false {α : Type} (p : α → Bool) :
    ∀ (l₁ : List α) (z : α) (l₂ : List α), (∀ y ∈ l₁, p y = false) → p z = true →
      (l₁ ++ z :: l₂).find? p = some z := by
  intro l₁
  induction l₁ with
  | nil => intro z l₂ _ hz; simp [List.find?_cons_of_pos _ hz]
  | cons a l ih =>
    intro z l₂ h hz
    have ha : p a = false := h a (List.mem_cons_self a l)
    rw [List.cons_append, List.find?_cons_of_neg _ (by simp [ha])]
    exact ih z l₂ (fun y hy => h y (List.mem_cons_of_mem a hy)) hz

/-! ## Helper lemmas: shape of `calc_etag` output -/

theorem calc_etag_data (fs : List (String × JVal)) :
    (calc_etag fs).data =
      '"' :: (hashChars (sha256Hash (utf8Bytes (canonPayload fs))) ++ ['"']) := rfl

theorem hex8_length (w : Nat) : (hex8 w).length = 8 := rfl

theorem hashChars_length (st : Hash8) : (hashChars st).length = 64 := by
  simp [hashChars, List.length_append, hex8_length]

theorem calc_etag_length (fs : List (String × JVal)) : (calc_etag fs).length = 66 := by
  show (calc_etag fs).data.length = 66
  rw [calc_etag_data, List.length_cons, List.length_append, hashChars_length]
  rfl

theorem calc_etag_head (fs : List (String × JVal)) :
    (calc_etag fs).data.head? = some '"' := by
  rw [calc_etag_data]; rfl

/-- Any string whose first character is not `"` differs from every ETag. -/
theorem ne_calc_etag_of_head (fs : List (String × JVal)) (s : String)
    (h : s.data.head? ≠ some '"') : s ≠ calc_etag fs := by
  intro hs
  exact h (hs ▸ calc_etag_head fs)

/-! ## Concrete sample data for witnesses -/

def sampleDate1 : DateTime := ⟨2025, 1, 15, 10, 20, 30, 0⟩
def sampleDate2 : DateTime := ⟨2025, 1, 16, 12, 0, 0, 0⟩
def sampleNow : DateTime := ⟨2025, 2, 1, 9, 30, 0, 0⟩
def sampleNow2 : DateTime := ⟨2025, 2, 2, 14, 45, 0, 0⟩

def sampleTheatre : TheatreRow :=
  ⟨1, 1, "PVR", "Bangalore", 5, sampleDate1, sampleDate2, false, none, some 1⟩

def sampleTheatreDb : List TheatreRow := [sampleTheatre]

/-- A path UUID whose first 8 hex digits decode to key 1. -/
def sampleUuid : Nat := 2 ^ 96

def sampleShowtime : ShowtimeRow :=
  ⟨1, 0, 1001, ⟨2025, 1, 20, 18, 30, 0, 0⟩, 15, sampleDate1, sampleDate2, false, none, some 1⟩

def sampleShowtimeDb : List ShowtimeRow := [sampleShowtime]

/-! ## C1: supplied-but-mismatched precondition tag ⇒ 412, no mutation;
absent tag on DELETE ⇒ soft delete proceeds -/

/--
C1: for PATCH, PUT and DELETE on an existing non-deleted theatre, a supplied
`If-Match` tag different from the freshly computed current ETag yields
status 412 with the store untouched; for DELETE the tag is optional, and
when absent the soft delete proceeds (the store becomes the service's
soft-deleted store).
-/
theorem claim_C1 (db : List TheatreRow) (u : Nat) (t : TheatreRow) (tag : String)
    (upd : TheatreUpdate) (cre : TheatreCreate) (now : DateTime)
    (hget : get_theatre_by_id db (uuidToDbInt u) = some t)
    (htag : tag ≠ calcEtagTheatre (dict_to_theatre_read t)) :
    patchTheatre db u upd (some tag) now = ⟨412, none, none, db⟩ ∧
    putTheatre db u cre (some tag) now = ⟨412, none, none, db⟩ ∧
    deleteTheatre db u (some tag) now = ⟨412, db⟩ ∧
    deleteTheatre db u none now = ⟨200, (delete_theatre db (uuidToDbInt u) now).2⟩ := by
  refine ⟨?_, ?_, ?_, ?_⟩
  · simp [patchTheatre, hget, htag]
  · simp [putTheatre, hget, htag]
  · simp [deleteTheatre, hget, htag]
  · obtain ⟨l₁, l₂, hdb, h₁, hx, hu⟩ :=
      updateFirst_of_find_some (theatreMatch (uuidToDbInt u))
        (fun t => softDeleteRow t now) db t hget
    simp [deleteTheatre, hget, delete_theatre, hu]

theorem claim_C1_witness :
    patchTheatre sampleTheatreDb sampleUuid ⟨none, none, none⟩ (some "x") sampleNow
        = ⟨412, none, none, sampleTheatreDb⟩ ∧
    putTheatre sampleTheatreDb sampleUuid ⟨"N", "A", 1⟩ (some "x") sampleNow
        = ⟨412, none, none, sampleTheatreDb⟩ ∧
    deleteTheatre sampleTheatreDb sampleUuid (some "x") sampleNow = ⟨412, sampleTheatreDb⟩ ∧
    deleteTheatre sampleTheatreDb sampleUuid none sampleNow
        = ⟨200, (delete_theatre sampleTheatreDb (uuidToDbInt sampleUuid) sampleNow).2⟩ :=
  claim_C1 sampleTheatreDb sampleUuid sampleTheatre "x" ⟨none, none, none⟩ ⟨"N", "A", 1⟩
    sampleNow (by decide) (ne_calc_etag_of_head _ "x" (by decide))

/-! ## C2: missing precondition tag on PATCH/PUT -/

/--
C2 (code bug): on the theatre router a PATCH or PUT carrying no `If-Match`
tag is rejected with 428 for every payload, store unchanged, as claimed; on
the showtime router the same requests — like all requests — answer 500 with
the store unchanged, because the handlers raise `TypeError` on their
db-less service calls before the 428 check is ever reached.
-/
theorem claim_C2 (db : List TheatreRow) (u : Nat) (t : TheatreRow)
    (upd : TheatreUpdate) (cre : TheatreCreate) (now : DateTime)
    (hget : get_theatre_by_id db (uuidToDbInt u) = some t) :
    patchTheatre db u upd none now = ⟨428, none, none, db⟩ ∧
    putTheatre db u cre none now = ⟨428, none, none, db⟩ ∧
    (∀ (sdb : List ShowtimeRow) (v : Nat) (supd : ShowtimeUpd) (now2 : DateTime),
      patchShowtime sdb v supd none now2 = ⟨500, sdb⟩) ∧
    (∀ (sdb : List ShowtimeRow) (v : Nat) (movieId : Int) (startTime : DateTime)
        (seatsBooked : Int) (now2 : DateTime),
      putShowtime sdb v movieId startTime seatsBooked none now2 = ⟨500, sdb⟩) := by
  refine ⟨by simp [patchTheatre, hget], by simp [putTheatre, hget],
    fun _ _ _ _ => rfl, fun _ _ _ _ _ _ => rfl⟩

theorem claim_C2_witness :
    patchTheatre sampleTheatreDb sampleUuid ⟨some "New", none, none⟩ none sampleNow
        = ⟨428, none, none, sampleTheatreDb⟩ ∧
    putTheatre sampleTheatreDb sampleUuid ⟨"N", "A", 1⟩ none sampleNow
        = ⟨428, none, none, sampleTheatreDb⟩ ∧
    patchShowtime sampleShowtimeDb sampleUuid ⟨some 7, none, none⟩ none sampleNow
        = ⟨500, sampleShowtimeDb⟩ ∧
    putShowtime sampleShowtimeDb sampleUuid 7 sampleDate1 3 none sampleNow
        = ⟨500, sampleShowtimeDb⟩ :=
  have h := claim_C2 sampleTheatreDb sampleUuid sampleTheatre ⟨some "New", none, none⟩
    ⟨"N", "A", 1⟩ sampleNow (by decide)
  ⟨h.1, h.2.1, h.2.2.1 sampleShowtimeDb sampleUuid ⟨some 7, none, none⟩ sampleNow,
   h.2.2.2 sampleShowtimeDb sampleUuid 7 sampleDate1 3 sampleNow⟩

/-! ## C6: conditional GET -/

/--
C6 (code bug): on the theatre endpoint, a GET carrying the current tag `T`
answers 304 with no body and `T` still attached, a GET carrying anything
else (or nothing) answers 200 with the body and `T`, and repeating a GET
with the tag just received yields 304, as claimed; on the showtime endpoint
every GET answers 500 with no body and no tag (db-less service call), so
the claimed 304/200 behaviour never occurs there.
-/
theorem claim_C6 (db : List TheatreRow) (u : Nat) (t : TheatreRow)
    (hget : get_theatre_by_id db (uuidToDbInt u) = some t) :
    (getTheatre db u (some (calcEtagTheatre (dict_to_theatre_read t)))
        = ⟨304, none, some (calcEtagTheatre (dict_to_theatre_read t)), db⟩) ∧
    (∀ inm, inm ≠ some (calcEtagTheatre (dict_to_theatre_read t)) →
      getTheatre db u inm = ⟨200, some (dict_to_theatre_read t),
        some (calcEtagTheatre (dict_to_theatre_read t)), db⟩) ∧
    (getTheatre db u ((getTheatre db u none).etag)
        = ⟨304, none, some (calcEtagTheatre (dict_to_theatre_read t)), db⟩) ∧
    (∀ (sdb : List ShowtimeRow) (v : Nat) (inm : Option String),
      getShowtime sdb v inm = ⟨500, sdb⟩) := by
  have h200 : getTheatre db u none = ⟨200, some (dict_to_theatre_read t),
      some (calcEtagTheatre (dict_to_theatre_read t)), db⟩ := by
    simp [getTheatre, hget]
  refine ⟨?_, ?_, ?_, fun _ _ _ => rfl⟩
  · simp [getTheatre, hget]
  · intro inm hinm; simp [getTheatre, hget, hinm]
  · rw [h200]; simp [getTheatre, hget]

theorem claim_C6_witness :
    (getTheatre sampleTheatreDb sampleUuid
        (some (calcEtagTheatre (dict_to_theatre_read sampleTheatre)))
      = ⟨304, none, some (calcEtagTheatre (dict_to_theatre_read sampleTheatre)),
          sampleTheatreDb⟩) ∧
    (getTheatre sampleTheatreDb sampleUuid ((getTheatre sampleTheatreDb sampleUuid none).etag)
      = ⟨304, none, some (calcEtagTheatre (dict_to_theatre_read sampleTheatre)),
          sampleTheatreDb⟩) ∧
    getShowtime sampleShowtimeDb sampleUuid none = ⟨500, sampleShowtimeDb⟩ :=
  have h := claim_C6 sampleTheatreDb sampleUuid sampleTheatre (by decide)
  ⟨h.1, h.2.2.1, h.2.2.2 sampleShowtimeDb sampleUuid none⟩

/-! ## C8: soft delete -/

theorem updateFirst_length {α : Type} (p : α → Bool) (f : α → α) :
    ∀ l : List α, ((updateFirst p f l).2).length = l.length := by
  intro l
  induction l with
  | nil => rfl
  | cons x xs ih =>
    by_cases hp : p x = true
    · simp [updateFirst, hp]
    · simp only [updateFirst, Bool.not_eq_true] at hp ⊢
      simp [hp, ih]

/--
C8: DELETE is a soft delete.  (i) Every row a `get` returns is non-deleted;
(ii) every row a `list` returns is non-deleted — so a soft-deleted record is
excluded from all get/list results; (iii) the service's delete never changes
the number of stored rows; (iv) on an existing row it merely flips the
deletion flag and sets the deletion timestamp of that row in place.
-/
theorem claim_C8 :
    (∀ (db : List TheatreRow) (id : Nat) (t : TheatreRow),
      get_theatre_by_id db id = some t → t.is_deleted = false) ∧
    (∀ (db : List TheatreRow) (t : TheatreRow),
      t ∈ get_all_theatres db → t.is_deleted = false) ∧
    (∀ (db : List TheatreRow) (id : Nat) (now : DateTime),
      ((delete_theatre db id now).2).length = db.length) ∧
    (∀ (db : List TheatreRow) (id : Nat) (now : DateTime) (t : TheatreRow),
      get_theatre_by_id db id = some t →
      ∃ l₁ l₂, db = l₁ ++ t :: l₂ ∧
        delete_theatre db id now = (true, l₁ ++ softDeleteRow t now :: l₂) ∧
        (softDeleteRow t now).is_deleted = true ∧
        (softDeleteRow t now).deleted_at = some now) := by
  refine ⟨?_, ?_, ?_, ?_⟩
  · intro db id t h
    have := List.find?_some h
    simp [theatreMatch] at this
    exact this.2
  · intro db t h
    have := List.of_mem_filter h
    simpa using this
  · intro db id now
    exact updateFirst_length _ _ db
  · intro db id now t h
    obtain ⟨l₁, l₂, hdb, h₁, hx, hu⟩ :=
      updateFirst_of_find_some (theatreMatch id) (fun t => softDeleteRow t now) db t h
    exact ⟨l₁, l₂, hdb, by simp [delete_theatre, hu], rfl, rfl⟩

theorem claim_C8_witness :
    sampleTheatre.is_deleted = false ∧
    ((delete_theatre sampleTheatreDb 1 sampleNow).2).length = sampleTheatreDb.length :=
  ⟨claim_C8.1 sampleTheatreDb 1 sampleTheatre (by decide),
   claim_C8.2.2.1 sampleTheatreDb 1 sampleNow⟩

/-! ## Seat adjustment: C7 and C9 -/

theorem commitShowtimeRow_seats (s new : ShowtimeRow) (now : DateTime) :
    (commitShowtimeRow s new now).seats_booked = new.seats_booked := by
  unfold commitShowtimeRow
  split
  · rename_i h; rw [h]
  · rfl

/-- A 10 × 20 screen (200 seats). -/
def boundScreen : ScreenRow :=
  ⟨0, 1, "S1", 10, 20, sampleDate1, sampleDate2, false, none, some 1⟩

def showtimeWithSeats (b : Int) : ShowtimeRow :=
  ⟨1, 0, 1001, ⟨2025, 1, 20, 18, 30, 0, 0⟩, b, sampleDate1, sampleDate2, false, none, some 1⟩

/--
C7 (code bug): the claimed seat-adjustment behaviour is unreachable.  Every
request to POST /showtimes/{id}/seats answers 500 with the store untouched
— the handler raises `TypeError` on its db-less service calls before the
screen lookup and the bounds checks — so the endpoint never returns 400 and
never changes a booked count; in particular the 10×20 boundary scenario
(here: 199 booked, delta +1) yields 500, not the claimed 200/400 family.
The service method the claim also cites,
`ShowtimeDataService.update_seat_count`, would apply the delta
unconditionally (it has no bounds check of its own) if it were ever
reached.
-/
theorem claim_C7 :
    (∀ (sdb : List ShowtimeRow) (screens : List ScreenRow) (u : Nat) (count : Int)
        (now : DateTime), updateSeatCount sdb screens u count now = ⟨500, sdb⟩) ∧
    (updateSeatCount [showtimeWithSeats 199] [boundScreen] sampleUuid 1 sampleNow
        = ⟨500, [showtimeWithSeats 199]⟩) ∧
    (∀ (sdb : List ShowtimeRow) (u : Nat) (count : Int) (now : DateTime) (s : ShowtimeRow),
      get_showtime_by_id sdb (uuidToDbInt u) = some s →
      ∃ s' sdb', update_seat_count sdb (uuidToDbInt u) count now = (some s', sdb') ∧
        s'.seats_booked = s.seats_booked + count) := by
  refine ⟨fun _ _ _ _ _ => rfl, rfl, ?_⟩
  intro sdb u count now s hs
  obtain ⟨l₁, l₂, hdb, hfalse, hx, hu⟩ :=
    updateFirst_of_find_some (showtimeMatch (uuidToDbInt u))
      (fun s => commitShowtimeRow s { s with seats_booked := s.seats_booked + count } now)
      sdb s hs
  exact ⟨_, _, hu, commitShowtimeRow_seats _ _ _⟩

theorem claim_C7_witness :
    updateSeatCount [showtimeWithSeats 199] [boundScreen] sampleUuid 1 sampleNow
        = ⟨500, [showtimeWithSeats 199]⟩ ∧
    (∃ s' sdb', update_seat_count [showtimeWithSeats 199] (uuidToDbInt sampleUuid) 1 sampleNow
        = (some s', sdb') ∧ s'.seats_booked = (showtimeWithSeats 199).seats_booked + 1) :=
  ⟨claim_C7.1 [showtimeWithSeats 199] [boundScreen] sampleUuid 1 sampleNow,
   claim_C7.2.2 [showtimeWithSeats 199] sampleUuid 1 sampleNow (showtimeWithSeats 199)
     (by decide)⟩

/-! ## C9: no concurrency precondition on the seat endpoint -/

/--
C9 counterexample: the claim asserts that for an existing non-deleted
showtime and an in-bounds delta the mutation is applied unconditionally.
At a concrete state satisfying exactly those premises — showtime key 1 with
199 booked seats, a 10×20 screen, delta +1 — the endpoint answers 500 and
leaves the store unchanged: the mutation is not applied, because the
handler raises `TypeError` on its first db-less service call.
-/
theorem claim_C9_counterexample :
    updateSeatCount [showtimeWithSeats 199] [boundScreen] sampleUuid 1 sampleNow
        = ⟨500, [showtimeWithSeats 199]⟩ ∧
    (updateSeatCount [showtimeWithSeats 199] [boundScreen] sampleUuid 1 sampleNow).status
        ≠ 200 :=
  ⟨rfl, by decide⟩

/--
C9 amended: the seat-adjustment endpoint performs no concurrency
precondition check — it declares no `If-Match` parameter and can never
respond 428 or 412 — but not because the mutation goes through: every
request, whatever the store, path id, delta and instant, answers 500 with
the store unchanged, because the handler's db-less service calls raise
`TypeError` before the seat logic; no mutation is ever applied.
-/
theorem claim_C9 :
    (∀ (sdb : List ShowtimeRow) (screens : List ScreenRow) (u : Nat) (count : Int)
        (now : DateTime), updateSeatCount sdb screens u count now = ⟨500, sdb⟩) ∧
    (∀ (sdb : List ShowtimeRow) (screens : List ScreenRow) (u : Nat) (count : Int)
        (now : DateTime),
      (updateSeatCount sdb screens u count now).status ≠ 428 ∧
      (updateSeatCount sdb screens u count now).status ≠ 412 ∧
      (updateSeatCount sdb screens u count now).sdb = sdb) := by
  refine ⟨fun _ _ _ _ _ => rfl, ?_⟩
  intro sdb screens u count now
  refine ⟨?_, ?_, rfl⟩ <;> simp [updateSeatCount]

/-! ## C10: the id → UUID → id round trip -/

theorem fixedHex_length : ∀ (k v : Nat), (fixedHex k v).length = k := by
  intro k
  induction k with
  | zero => intro v; rfl
  | succ k ih => intro v; simp [fixedHex, ih]

theorem hexNib_ne_dash (n : Nat) : hexNib n ≠ '-' := by
  unfold hexNib
  split <;> decide

theorem fixedHex_no_dash : ∀ (k v : Nat), ∀ c ∈ fixedHex k v, c ≠ '-' := by
  intro k
  induction k with
  | zero => intro v c hc; exact absurd hc (List.not_mem_nil c)
  | succ k ih =>
    intro v c hc
    rcases List.mem_append.mp hc with h | h
    · exact ih (v / 16) c h
    · rcases List.mem_singleton.mp h with rfl
      exact hexNib_ne_dash _

/-- Splitting a fixed-width hex rendering into high and low digits. -/
theorem fixedHex_split (j : Nat) : ∀ (k v : Nat),
    fixedHex (j + k) v = fixedHex j (v / 16 ^ k) ++ fixedHex k (v % 16 ^ k) := by
  intro k
  induction k with
  | zero => intro v; simp [fixedHex]
  | succ k ih =>
    intro v
    have e1 : v / 16 / 16 ^ k = v / 16 ^ (k + 1) := by
      rw [Nat.div_div_eq_div_mul, pow_succ']
    have e2 : v / 16 % 16 ^ k = v % 16 ^ (k + 1) / 16 := by
      rw [pow_succ', Nat.mod_mul_right_div_self]
    have e3 : v % 16 ^ (k + 1) % 16 = v % 16 := by
      exact Nat.mod_mod_of_dvd v (dvd_pow_self 16 (Nat.succ_ne_zero k))
    show fixedHex (j + k) (v / 16) ++ [hexNib (v % 16)]
        = fixedHex j (v / 16 ^ (k + 1)) ++ (fixedHex k (v % 16 ^ (k + 1) / 16) ++ [hexNib (v % 16 ^ (k + 1) % 16)])
    rw [ih (v / 16), e1, e2, e3, List.append_assoc]

/-- Dropping the hyphens of the canonical UUID string recovers the 32 hex
digits. -/
theorem filter_uuidCanonical (u : Nat) :
    (uuidCanonicalChars u).filter (fun c => c ≠ '-') = fixedHex 32 u := by
  have hsub : ∀ (l : List Char), l ⊆ fixedHex 32 u → l.filter (fun c => c ≠ '-') = l := by
    intro l hl
    exact List.filter_eq_self.mpr
      (fun c hc => by simpa using fixedHex_no_dash 32 u c (hl hc))
  have f1 := hsub _ (List.take_subset 8 (fixedHex 32 u))
  have f2 := hsub _ (fun c hc => List.drop_subset 8 _ (List.take_subset 4 _ hc))
  have f3 := hsub _ (fun c hc => List.drop_subset 12 _ (List.take_subset 4 _ hc))
  have f4 := hsub _ (fun c hc => List.drop_subset 16 _ (List.take_subset 4 _ hc))
  have f5 := hsub _ (List.drop_subset 20 (fixedHex 32 u))
  unfold uuidCanonicalChars
  simp only [List.filter_append, List.filter_cons]
  simp only [ne_eq, not_true_eq_false, decide_False]
  rw [f1, f2, f3, f4, f5]
  have h12 : (fixedHex 32 u).drop 12 = ((fixedHex 32 u).drop 8).drop 4 := by
    rw [List.drop_drop]
  have h16 : (fixedHex 32 u).drop 16 = (((fixedHex 32 u).drop 8).drop 4).drop 4 := by
    rw [List.drop_drop, List.drop_drop]
  have h20 : (fixedHex 32 u).drop 20 = ((((fixedHex 32 u).drop 8).drop 4).drop 4).drop 4 := by
    rw [List.drop_drop, List.drop_drop, List.drop_drop]
  rw [h12, h16, h20]
  simp only [Bool.false_eq_true, if_false, List.append_assoc]
  rw [List.take_append_drop, List.take_append_drop, List.take_append_drop,
    List.take_append_drop]

theorem take8_fixedHex32 (v : Nat) (hv : v < 16 ^ 24) :
    (fixedHex 32 v).take 8 = fixedHex 8 0 := by
  have h : fixedHex 32 v = fixedHex 8 (v / 16 ^ 24) ++ fixedHex 24 (v % 16 ^ 24) :=
    fixedHex_split 8 24 v
  rw [Nat.div_eq_of_lt hv, Nat.mod_eq_of_lt hv] at h
  rw [h, List.take_append_of_le_length (by rw [fixedHex_length]),
    List.take_of_length_le (by rw [fixedHex_length])]

/--
C10: the integer-to-UUID shim is not inverted by the routers' uuid-to-int
conversion: for every id `v` with `1 ≤ v < 2^96`, the padded hex form puts
`v`'s digits at the low end, the routers read the 8 high hex digits, and the
round trip returns 0, not `v`.
-/
theorem claim_C10 (v : Nat) (h1 : 1 ≤ v) (h2 : v < 2 ^ 96) :
    uuidToDbInt (int_to_uuid v) = 0 ∧ uuidToDbInt (int_to_uuid v) ≠ v := by
  have hpow : (16 : Nat) ^ 24 = 2 ^ 96 := by norm_num
  have h2' : v < 16 ^ 24 := by rw [hpow]; exact h2
  have key : uuidToDbInt (int_to_uuid v) = 0 := by
    unfold uuidToDbInt int_to_uuid
    rw [filter_uuidCanonical, take8_fixedHex32 v h2']
    decide
  exact ⟨key, by rw [key]; omega⟩

theorem claim_C10_witness :
    uuidToDbInt (int_to_uuid 5) = 0 ∧ uuidToDbInt (int_to_uuid 5) ≠ 5 :=
  claim_C10 5 (by decide) (by decide)

/-! ## C5: optimistic-lock replay -/

theorem commitRow_theatre_id (t new : TheatreRow) (now : DateTime) :
    (commitRow t new now).theatre_id = new.theatre_id := by
  unfold commitRow
  split
  · rename_i h; rw [h]
  · rfl

theorem commitRow_is_deleted (t new : TheatreRow) (now : DateTime) :
    (commitRow t new now).is_deleted = new.is_deleted := by
  unfold commitRow
  split
  · rename_i h; rw [h]
  · rfl

theorem commitRow_name (t new : TheatreRow) (now : DateTime) :
    (commitRow t new now).name = new.name := by
  unfold commitRow
  split
  · rename_i h; rw [h]
  · rfl

/--
C5 counterexample: the claim fails on a no-op PATCH.  With the sample
theatre at tag `T0`, a PATCH carrying `T0` with an empty payload succeeds
(200) and leaves the store — hence the tag — unchanged (the service sets no
field, so no UPDATE is issued and `updated_at` is not refreshed); replaying
the same PATCH with `T0` succeeds again with 200 instead of the claimed 412.
-/
theorem claim_C5_counterexample :
    (patchTheatre sampleTheatreDb sampleUuid ⟨none, none, none⟩
        (some (calcEtagTheatre (dict_to_theatre_read sampleTheatre))) sampleNow).status
      = 200 ∧
    (patchTheatre sampleTheatreDb sampleUuid ⟨none, none, none⟩
        (some (calcEtagTheatre (dict_to_theatre_read sampleTheatre))) sampleNow).db
      = sampleTheatreDb ∧
    (patchTheatre
        (patchTheatre sampleTheatreDb sampleUuid ⟨none, none, none⟩
          (some (calcEtagTheatre (dict_to_theatre_read sampleTheatre))) sampleNow).db
        sampleUuid ⟨none, none, none⟩
        (some (calcEtagTheatre (dict_to_theatre_read sampleTheatre))) sampleNow2).status
      = 200 := by
  refine ⟨by decide, by decide, by decide⟩

/--
C5 amended: a PATCH carrying the current tag `T0` succeeds and returns the
updated row; when the payload actually changes a field (here: a new name)
the refresh of `updated_at` does occur; the updated row is what a subsequent
lookup finds; and a second PATCH replaying `T0` receives 412 (store
unchanged) whenever the post-update ETag differs from `T0`.  (A no-op PATCH
leaves the tag unchanged, so its replay succeeds again; and distinct tags
for the changed row are guaranteed only up to SHA-256 collisions, hence the
final hypothesis, discharged by computation on concrete states.)
-/
theorem claim_C5_amended (db : List TheatreRow) (u : Nat) (t : TheatreRow)
    (upd : TheatreUpdate) (now1 : DateTime) (t' : TheatreRow) (db' : List TheatreRow)
    (hget : get_theatre_by_id db (uuidToDbInt u) = some t)
    (hupd : update_theatre db (uuidToDbInt u) upd.name upd.address upd.screenCount now1
      = (some t', db')) :
    patchTheatre db u upd (some (calcEtagTheatre (dict_to_theatre_read t))) now1
      = ⟨200, some (dict_to_theatre_read t'),
          some (calcEtagTheatre (dict_to_theatre_read t')), db'⟩ ∧
    (∀ n, upd.name = some n → n ≠ t.name → t'.updated_at = now1) ∧
    get_theatre_by_id db' (uuidToDbInt u) = some t' ∧
    (∀ (upd2 : TheatreUpdate) (now2 : DateTime),
      calcEtagTheatre (dict_to_theatre_read t') ≠ calcEtagTheatre (dict_to_theatre_read t) →
      patchTheatre db' u upd2 (some (calcEtagTheatre (dict_to_theatre_read t))) now2
        = ⟨412, none, none, db'⟩) := by
  obtain ⟨l₁, l₂, hdb, hfalse, hx, hu⟩ :=
    updateFirst_of_find_some (theatreMatch (uuidToDbInt u))
      (fun t => commitRow t (applyTheatreUpdates upd.name upd.address upd.screenCount t) now1)
      db t hget
  have hu' : update_theatre db (uuidToDbInt u) upd.name upd.address upd.screenCount now1
      = (some (commitRow t (applyTheatreUpdates upd.name upd.address upd.screenCount t) now1),
         l₁ ++ commitRow t (applyTheatreUpdates upd.name upd.address upd.screenCount t) now1 :: l₂) := hu
  rw [hupd] at hu'
  have ht' : t' = commitRow t (applyTheatreUpdates upd.name upd.address upd.screenCount t) now1 := by
    have := congrArg Prod.fst hu'
    simpa using this
  have hdb' : db' = l₁ ++ t' :: l₂ := by
    have := congrArg Prod.snd hu'
    simp at this
    rw [← ht'] at this
    exact this
  have hmatch : theatreMatch (uuidToDbInt u) t' = true := by
    rw [ht']
    simp only [theatreMatch] at hx ⊢
    rw [commitRow_theatre_id, commitRow_is_deleted]
    simpa [applyTheatreUpdates] using hx
  have hget' : get_theatre_by_id db' (uuidToDbInt u) = some t' := by
    rw [hdb']
    exact find_append_of_all_false _ l₁ t' l₂ hfalse hmatch
  refine ⟨?_, ?_, hget', ?_⟩
  · simp [patchTheatre, hget, hupd]
  · intro n hn hne
    rw [ht']
    unfold commitRow
    split
    · rename_i heq
      exfalso
      apply hne
      have := congrArg TheatreRow.name heq
      simpa [applyTheatreUpdates, hn] using this
    · rfl
  · intro upd2 now2 hne
    simp [patchTheatre, hget', Ne.symm hne]

def c5After : TheatreRow :=
  ⟨1, 1, "New", "Bangalore", 5, sampleDate1, sampleNow, false, none, some 1⟩

theorem claim_C5_witness :
    patchTheatre sampleTheatreDb sampleUuid ⟨some "New", none, none⟩
        (some (calcEtagTheatre (dict_to_theatre_read sampleTheatre))) sampleNow
      = ⟨200, some (dict_to_theatre_read c5After),
          some (calcEtagTheatre (dict_to_theatre_read c5After)), [c5After]⟩ ∧
    (∀ n, (⟨some "New", none, none⟩ : TheatreUpdate).name = some n → n ≠ sampleTheatre.name →
      c5After.updated_at = sampleNow) ∧
    get_theatre_by_id [c5After] (uuidToDbInt sampleUuid) = some c5After ∧
    (∀ (upd2 : TheatreUpdate) (now2 : DateTime),
      calcEtagTheatre (dict_to_theatre_read c5After)
          ≠ calcEtagTheatre (dict_to_theatre_read sampleTheatre) →
      patchTheatre [c5After] sampleUuid upd2
          (some (calcEtagTheatre (dict_to_theatre_read sampleTheatre))) now2
        = ⟨412, none, none, [c5After]⟩) :=
  claim_C5_amended sampleTheatreDb sampleUuid sampleTheatre ⟨some "New", none, none⟩
    sampleNow c5After [c5After] (by decide) (by decide)

/-! ## C4: canonical serialization -/

theorem charListLE_cons (x y : Char) (xs ys : List Char) :
    charListLE (x :: xs) (y :: ys) = true ↔
      (x.toNat < y.toNat ∨ (x.toNat = y.toNat ∧ charListLE xs ys = true)) := by
  simp only [charListLE]
  split_ifs with h1 h2
  · simp [h1]
  · simp only [Bool.false_eq_true, false_iff]
    intro hcon
    rcases hcon with h | ⟨he, _⟩ <;> omega
  · have he : x.toNat = y.toNat := by omega
    simp [he]

theorem charListLE_total : ∀ a b : List Char, charListLE a b = true ∨ charListLE b a = true := by
  intro a
  induction a with
  | nil => exact fun b => Or.inl rfl
  | cons x xs ih =>
    intro b
    cases b with
    | nil => exact Or.inr rfl
    | cons y ys =>
      rcases Nat.lt_trichotomy x.toNat y.toNat with h | h | h
      · exact Or.inl ((charListLE_cons ..).mpr (Or.inl h))
      · rcases ih ys with h' | h'
        · exact Or.inl ((charListLE_cons ..).mpr (Or.inr ⟨h, h'⟩))
        · exact Or.inr ((charListLE_cons ..).mpr (Or.inr ⟨h.symm, h'⟩))
      · exact Or.inr ((charListLE_cons ..).mpr (Or.inl h))

theorem charListLE_trans : ∀ a b c : List Char,
    charListLE a b = true → charListLE b c = true → charListLE a c = true := by
  intro a
  induction a with
  | nil => intro b c _ _; rfl
  | cons x xs ih =>
    intro b c hab hbc
    cases b with
    | nil => exact absurd hab (by simp [charListLE])
    | cons y ys =>
      cases c with
      | nil => exact absurd hbc (by simp [charListLE])
      | cons z zs =>
        rcases (charListLE_cons ..).mp hab with h1 | ⟨h1, h1'⟩ <;>
          rcases (charListLE_cons ..).mp hbc with h2 | ⟨h2, h2'⟩
        · exact (charListLE_cons ..).mpr (Or.inl (by omega))
        · exact (charListLE_cons ..).mpr (Or.inl (by omega))
        · exact (charListLE_cons ..).mpr (Or.inl (by omega))
        · exact (charListLE_cons ..).mpr (Or.inr ⟨by omega, ih ys zs h1' h2'⟩)

theorem charListLE_antisymm : ∀ a b : List Char,
    charListLE a b = true → charListLE b a = true → a = b := by
  intro a
  induction a with
  | nil =>
    intro b _ hba
    cases b with
    | nil => rfl
    | cons y ys => exact absurd hba (by simp [charListLE])
  | cons x xs ih =>
    intro b hab hba
    cases b with
    | nil => exact absurd hab (by simp [charListLE])
    | cons y ys =>
      rcases (charListLE_cons ..).mp hab with h1 | ⟨h1, h1'⟩ <;>
        rcases (charListLE_cons ..).mp hba with h2 | ⟨h2, h2'⟩
      · omega
      · omega
      · omega
      · have hxy : x = y := Char.ext (UInt32.ext h1)
        rw [hxy, ih ys h1' h2']

/-- Two key-sorted field lists that are permutations of each other and have
no duplicate keys are equal. -/
theorem sorted_nodup_perm_eq : ∀ (l₁ l₂ : List (String × JVal)), l₁.Perm l₂ →
    List.Sorted (fun p q => keyLE p q = true) l₁ →
    List.Sorted (fun p q => keyLE p q = true) l₂ →
    (l₁.map Prod.fst).Nodup → l₁ = l₂ := by
  intro l₁
  induction l₁ with
  | nil =>
    intro l₂ hp _ _ _
    exact (List.Perm.eq_nil hp.symm).symm
  | cons a t₁ ih =>
    intro l₂ hp hs₁ hs₂ hnd
    cases l₂ with
    | nil => simpa using List.Perm.eq_nil hp
    | cons b t₂ =>
      simp only [List.map_cons, List.nodup_cons] at hnd
      by_cases hab : a = b
      · subst hab
        rw [ih t₂ hp.cons_inv hs₁.of_cons hs₂.of_cons hnd.2]
      · have ha2' : a ∈ t₂ := by
          rcases List.mem_cons.mp (hp.mem_iff.mp (List.mem_cons_self a t₁)) with h | h
          · exact absurd h hab
          · exact h
        have hb1' : b ∈ t₁ := by
          rcases List.mem_cons.mp (hp.mem_iff.mpr (List.mem_cons_self b t₂)) with h | h
          · exact absurd h.symm hab
          · exact h
        have hrab : keyLE a b = true := (List.sorted_cons.mp hs₁).1 b hb1'
        have hrba : keyLE b a = true := (List.sorted_cons.mp hs₂).1 a ha2'
        have hdata : a.1.data = b.1.data := charListLE_antisymm _ _ hrab hrba
        have hkey : a.1 = b.1 := by
          calc a.1 = String.mk a.1.data := rfl
          _ = String.mk b.1.data := by rw [hdata]
          _ = b.1 := rfl
        exact absurd (List.mem_map.mpr ⟨b, hb1', hkey.symm⟩) hnd.1

/-- The canonical serialization is independent of the incoming field order
(for duplicate-free keys): sorting canonicalizes. -/
theorem sortKeys_perm_eq (fs gs : List (String × JVal)) (hperm : fs.Perm gs)
    (hnd : (fs.map Prod.fst).Nodup) :
    sortKeys (excludeNone fs) = sortKeys (excludeNone gs) := by
  haveI : IsTotal (String × JVal) (fun p q => keyLE p q = true) :=
    ⟨fun a b => charListLE_total a.1.data b.1.data⟩
  haveI : IsTrans (String × JVal) (fun p q => keyLE p q = true) :=
    ⟨fun a b c => charListLE_trans a.1.data b.1.data c.1.data⟩
  have hef : (excludeNone fs).Perm (excludeNone gs) := hperm.filter _
  have hp : (sortKeys (excludeNone fs)).Perm (sortKeys (excludeNone gs)) :=
    ((List.perm_insertionSort _ _).trans hef).trans (List.perm_insertionSort _ _).symm
  have hnd' : ((sortKeys (excludeNone fs)).map Prod.fst).Nodup := by
    have h1 : (excludeNone fs).Sublist fs := List.filter_sublist fs
    have h2 : ((excludeNone fs).map Prod.fst).Nodup := (h1.map Prod.fst).nodup hnd
    have h3 : ((sortKeys (excludeNone fs)).map Prod.fst).Perm
        ((excludeNone fs).map Prod.fst) := (List.perm_insertionSort _ _).map _
    exact h3.nodup_iff.mpr h2
  exact sorted_nodup_perm_eq _ _ hp
    (List.sorted_insertionSort _ _) (List.sorted_insertionSort _ _) hnd'

/--
C4: the ETag pipeline.  The tag is the double-quoted SHA-256 hex digest of
the UTF-8 bytes of the canonical serialization; the serialization uses `,`
and `:` separators with no whitespace; its keys come out sorted; it is
invariant under reordering of the (duplicate-free) input fields; absent
(`None`) fields are excluded; datetimes are rendered as ISO-8601 with a
trailing `Z` and UUIDs as their canonical string; and the tag is a strong
quoted 66-character entity tag.
-/
theorem claim_C4 :
    (∀ fs : List (String × JVal),
      calc_etag fs = "\"" ++ sha256hex (utf8Bytes (canonPayload fs)) ++ "\"") ∧
    (∀ fs : List (String × JVal),
      canonPayload fs = "\x7b" ++ String.intercalate ","
        ((sortKeys (excludeNone fs)).map
          (fun p => escapeString p.1 ++ ":" ++ renderJVal p.2)) ++ "\x7d") ∧
    (∀ fs : List (String × JVal),
      List.Sorted (fun p q => keyLE p q = true) (sortKeys (excludeNone fs))) ∧
    (∀ fs gs : List (String × JVal), fs.Perm gs → (fs.map Prod.fst).Nodup →
      canonPayload fs = canonPayload gs ∧ calc_etag fs = calc_etag gs) ∧
    (∀ (k : String) (fs₁ fs₂ : List (String × JVal)),
      calc_etag (fs₁ ++ (k, JVal.jnull) :: fs₂) = calc_etag (fs₁ ++ fs₂)) ∧
    (∀ d, renderJVal (JVal.jdate d) = escapeString (isoformat d ++ "Z")) ∧
    (∀ u, renderJVal (JVal.juuid u) = escapeString (uuidCanonical u)) ∧
    (renderJVal (JVal.jdate sampleDate1) = "\"2025-01-15T10:20:30Z\"") ∧
    (∀ fs : List (String × JVal), (calc_etag fs).length = 66 ∧
      (calc_etag fs).data.head? = some '"' ∧
      (calc_etag fs).data.getLast? = some '"') := by
  refine ⟨fun fs => rfl, fun fs => rfl, ?_, ?_, ?_, fun d => rfl, fun u => rfl, by decide, ?_⟩
  · intro fs
    haveI : IsTotal (String × JVal) (fun p q => keyLE p q = true) :=
      ⟨fun a b => charListLE_total a.1.data b.1.data⟩
    haveI : IsTrans (String × JVal) (fun p q => keyLE p q = true) :=
      ⟨fun a b c => charListLE_trans a.1.data b.1.data c.1.data⟩
    exact List.sorted_insertionSort _ _
  · intro fs gs hperm hnd
    have h := sortKeys_perm_eq fs gs hperm hnd
    constructor
    · simp only [canonPayload, h]
    · simp only [calc_etag, canonPayload, h]
  · intro k fs₁ fs₂
    have h : excludeNone (fs₁ ++ (k, JVal.jnull) :: fs₂) = excludeNone (fs₁ ++ fs₂) := by
      simp [excludeNone, List.filter_append, List.filter_cons]
    simp only [calc_etag, canonPayload, sortKeys, h]
  · intro fs
    refine ⟨calc_etag_length fs, calc_etag_head fs, ?_⟩
    rw [calc_etag_data, ← List.cons_append]
    exact List.getLast?_concat _

theorem claim_C4_witness :
    canonPayload [("b", JVal.jint 1), ("a", JVal.jint 2)]
        = canonPayload [("a", JVal.jint 2), ("b", JVal.jint 1)] ∧
    calc_etag [("b", JVal.jint 1), ("a", JVal.jint 2)]
        = calc_etag [("a", JVal.jint 2), ("b", JVal.jint 1)] :=
  claim_C4.2.2.2.1 [("b", JVal.jint 1), ("a", JVal.jint 2)]
    [("a", JVal.jint 2), ("b", JVal.jint 1)]
    (List.Perm.swap ("a", JVal.jint 2) ("b", JVal.jint 1) [])
    (by decide)

/-! ## C3: ETag purity and the limits of tag distinctness -/

def Hash8Bounded (st : Hash8) : Prop :=
  st.a < 4294967296 ∧ st.b < 4294967296 ∧ st.c < 4294967296 ∧ st.d < 4294967296 ∧
  st.e < 4294967296 ∧ st.f < 4294967296 ∧ st.g < 4294967296 ∧ st.h < 4294967296

theorem m32_lt (x : Nat) : m32 x < 4294967296 := Nat.mod_lt _ (by norm_num)

theorem addHash_bounded (x y : Hash8) : Hash8Bounded (addHash x y) :=
  ⟨m32_lt _, m32_lt _, m32_lt _, m32_lt _, m32_lt _, m32_lt _, m32_lt _, m32_lt _⟩

theorem sha256Hash_bounded (msg : List Nat) : Hash8Bounded (sha256Hash msg) := by
  have hfold : ∀ (l : List (List Nat)) (st : Hash8), Hash8Bounded st →
      Hash8Bounded (l.foldl processBlock st) := by
    intro l
    induction l with
    | nil => intro st h; exact h
    | cons b bs ih =>
      intro st _
      exact ih _ (addHash_bounded _ _)
  exact hfold _ _ (by constructor <;> norm_num [sha256init])

/-- The eight digest words as a single number below `2^256`. -/
def wordsVal (st : Hash8) : Nat :=
  (((((((st.a * 4294967296 + st.b) * 4294967296 + st.c) * 4294967296 + st.d) * 4294967296
    + st.e) * 4294967296 + st.f) * 4294967296 + st.g) * 4294967296 + st.h)

theorem wordsVal_lt (st : Hash8) (h : Hash8Bounded st) : wordsVal st < 2 ^ 256 := by
  obtain ⟨h1, h2, h3, h4, h5, h6, h7, h8⟩ := h
  unfold wordsVal
  omega

theorem wordsVal_inj (x y : Hash8) (hx : Hash8Bounded x) (hy : Hash8Bounded y)
    (h : wordsVal x = wordsVal y) : x = y := by
  rcases x with ⟨a1, a2, a3, a4, a5, a6, a7, a8⟩
  rcases y with ⟨b1, b2, b3, b4, b5, b6, b7, b8⟩
  obtain ⟨ha1, ha2, ha3, ha4, ha5, ha6, ha7, ha8⟩ := hx
  obtain ⟨hb1, hb2, hb3, hb4, hb5, hb6, hb7, hb8⟩ := hy
  unfold wordsVal at h
  simp only at h ha1 ha2 ha3 ha4 ha5 ha6 ha7 ha8 hb1 hb2 hb3 hb4 hb5 hb6 hb7 hb8
  simp only [Hash8.mk.injEq]
  omega

theorem hexNib_inj : ∀ a, a < 16 → ∀ b, b < 16 → hexNib a = hexNib b → a = b := by decide

theorem hex8_inj (w w' : Nat) (hw : w < 4294967296) (hw' : w' < 4294967296)
    (h : hex8 w = hex8 w') : w = w' := by
  simp only [hex8, List.cons.injEq, and_true] at h
  obtain ⟨h1, h2, h3, h4, h5, h6, h7, h8⟩ := h
  have e1 := hexNib_inj _ (Nat.mod_lt _ (by norm_num)) _ (Nat.mod_lt _ (by norm_num)) h1
  have e2 := hexNib_inj _ (Nat.mod_lt _ (by norm_num)) _ (Nat.mod_lt _ (by norm_num)) h2
  have e3 := hexNib_inj _ (Nat.mod_lt _ (by norm_num)) _ (Nat.mod_lt _ (by norm_num)) h3
  have e4 := hexNib_inj _ (Nat.mod_lt _ (by norm_num)) _ (Nat.mod_lt _ (by norm_num)) h4
  have e5 := hexNib_inj _ (Nat.mod_lt _ (by norm_num)) _ (Nat.mod_lt _ (by norm_num)) h5
  have e6 := hexNib_inj _ (Nat.mod_lt _ (by norm_num)) _ (Nat.mod_lt _ (by norm_num)) h6
  have e7 := hexNib_inj _ (Nat.mod_lt _ (by norm_num)) _ (Nat.mod_lt _ (by norm_num)) h7
  have e8 := hexNib_inj _ (Nat.mod_lt _ (by norm_num)) _ (Nat.mod_lt _ (by norm_num)) h8
  simp only [Nat.shiftRight_eq_div_pow] at e1 e2 e3 e4 e5 e6 e7 e8
  omega

theorem hashChars_inj (st st' : Hash8) (hb : Hash8Bounded st) (hb' : Hash8Bounded st')
    (h : hashChars st = hashChars st') : st = st' := by
  rcases st with ⟨a1, a2, a3, a4, a5, a6, a7, a8⟩
  rcases st' with ⟨b1, b2, b3, b4, b5, b6, b7, b8⟩
  obtain ⟨ha1, ha2, ha3, ha4, ha5, ha6, ha7, ha8⟩ := hb
  obtain ⟨hb1, hb2, hb3, hb4, hb5, hb6, hb7, hb8⟩ := hb'
  unfold hashChars at h
  simp only at h ha1 ha2 ha3 ha4 ha5 ha6 ha7 ha8 hb1 hb2 hb3 hb4 hb5 hb6 hb7 hb8
  obtain ⟨h, g8⟩ := List.append_inj' h (by simp [hex8_length])
  obtain ⟨h, g7⟩ := List.append_inj' h (by simp [hex8_length])
  obtain ⟨h, g6⟩ := List.append_inj' h (by simp [hex8_length])
  obtain ⟨h, g5⟩ := List.append_inj' h (by simp [hex8_length])
  obtain ⟨h, g4⟩ := List.append_inj' h (by simp [hex8_length])
  obtain ⟨h, g3⟩ := List.append_inj' h (by simp [hex8_length])
  obtain ⟨g1, g2⟩ := List.append_inj' h (by simp [hex8_length])
  simp only [Hash8.mk.injEq]
  exact ⟨hex8_inj _ _ ha1 hb1 g1, hex8_inj _ _ ha2 hb2 g2, hex8_inj _ _ ha3 hb3 g3,
    hex8_inj _ _ ha4 hb4 g4, hex8_inj _ _ ha5 hb5 g5, hex8_inj _ _ ha6 hb6 g6,
    hex8_inj _ _ ha7 hb7 g7, hex8_inj _ _ ha8 hb8 g8⟩

/-- Tag equality is exactly digest equality. -/
theorem tag_eq_iff_digest_eq (fs gs : List (String × JVal)) :
    calc_etag fs = calc_etag gs ↔
      sha256Hash (utf8Bytes (canonPayload fs)) = sha256Hash (utf8Bytes (canonPayload gs)) := by
  constructor
  · intro h
    have hd := congrArg String.data h
    rw [calc_etag_data, calc_etag_data] at hd
    simp only [List.cons.injEq, true_and] at hd
    obtain ⟨hh, -⟩ := List.append_inj hd (by rw [hashChars_length, hashChars_length])
    exact hashChars_inj _ _ (sha256Hash_bounded _) (sha256Hash_bounded _) hh
  · intro h
    unfold calc_etag sha256hex
    rw [h]

/-- An infinite family of distinct `TheatreRead` values. -/
def c3Inject (n : Nat) : TheatreRead :=
  { theatre_id := 1, name := "a", address := "b", cinema_id := 1,
    screenCount := (n : Int), created_at := sampleDate1, updated_at := sampleDate1 }

def c3Val (n : Nat) : Nat :=
  wordsVal (sha256Hash (utf8Bytes (canonPayload (theatreFields (c3Inject n)))))

/--
C3 counterexample: the universal claim "any field difference changes the
tag" is false.  The codomain of the ETag calculator is the finite set of
256-bit digests while the field-set space (here: all `screenCount` values)
is infinite, so some two distinct field sets must share a tag: the claim,
read as stated over all field sets, cannot hold.
-/
theorem claim_C3_counterexample :
    ¬ (∀ F G : TheatreRead, F ≠ G → calcEtagTheatre F ≠ calcEtagTheatre G) := by
  intro H
  have hginj : Function.Injective c3Inject := by
    intro m n h
    have := congrArg TheatreRead.screenCount h
    simpa [c3Inject] using this
  have hfn_lt : ∀ n, c3Val n < 2 ^ 256 :=
    fun n => wordsVal_lt _ (sha256Hash_bounded _)
  have hfn_inj : Function.Injective c3Val := by
    intro m n h
    by_contra hmn
    have hgne : c3Inject m ≠ c3Inject n := fun he => hmn (hginj he)
    have htag := H (c3Inject m) (c3Inject n) hgne
    have hst := wordsVal_inj _ _ (sha256Hash_bounded _) (sha256Hash_bounded _) h
    exact htag ((tag_eq_iff_digest_eq _ _).mpr hst)
  have hmaps : ∀ a ∈ Finset.range (2 ^ 256 + 1), c3Val a ∈ Finset.range (2 ^ 256) :=
    fun a _ => Finset.mem_range.mpr (hfn_lt a)
  have hcard := Finset.card_le_card_of_injOn c3Val hmaps hfn_inj.injOn
  simp only [Finset.card_range] at hcard
  exact Nat.not_succ_le_self _ hcard

def c3Base : TheatreRead := dict_to_theatre_read sampleTheatre
def c3NameChanged : TheatreRead := { c3Base with name := "PVS" }
def c3MicroChanged : TheatreRead := { c3Base with updated_at := ⟨2025, 1, 16, 12, 0, 0, 500⟩ }

/--
C3 amended: the calculator is a pure function — identical field sets always
yield identical tags, with no dependence on call order or prior state (the
embedding is stateless) — and tag equality coincides exactly with equality
of the SHA-256 digests of the canonical serializations; a field difference
therefore changes the tag precisely when it changes the digest, which holds
in the concrete single-field and timestamp-precision cases checked, but
cannot hold universally for all pairs of field sets (see the
counterexample).
-/
theorem claim_C3_amended :
    (∀ F G : TheatreRead, F = G → calcEtagTheatre F = calcEtagTheatre G) ∧
    (∀ F G : TheatreRead,
      calcEtagTheatre F = calcEtagTheatre G ↔
        sha256Hash (utf8Bytes (canonPayload (theatreFields F)))
          = sha256Hash (utf8Bytes (canonPayload (theatreFields G)))) ∧
    (calcEtagTheatre c3Base ≠ calcEtagTheatre c3NameChanged) ∧
    (calcEtagTheatre c3Base ≠ calcEtagTheatre c3MicroChanged) := by
  refine ⟨fun F G h => by rw [h], fun F G => tag_eq_iff_digest_eq _ _, by decide, by decide⟩

theorem claim_C3_witness :
    calcEtagTheatre c3Base = calcEtagTheatre c3Base :=
  claim_C3_amended.1 c3Base c3Base rfl

end TheatreService
